import Mathlib

/- Shallow embedding of the posting-schedule and content-optimization core of
   the social-media automation backend (app/services/scheduler.py and
   app/services/optimization.py).

   Modelling conventions:
   - Instants are integers: seconds since the Unix epoch, UTC.  Python floor
     division and modulo on them are Int.fdiv and Int.emod (divisors here are
     always positive, where the two agree with Python).
   - The pytz regional timezones America/New_York and Europe/London are
     modelled as fixed UTC offsets (-18000 s and 0 s), their standard-time
     winter offsets; every concrete instant used below falls in January 2026,
     where these are the exact pytz offsets.
   - Python float / numpy float64 arithmetic is modelled by exact rationals;
     numpy division, which can yield infinities instead of raising, is
     modelled by the NpVal type.
   - Python exceptions are modelled with Except String; randomness
     (random.randint) is an injectable stream js : Nat -> Nat together with a
     position index that the embedding threads through.
   - sklearn estimators are external collaborators: their fit and predict
     routines enter the embedding as function parameters, while all control
     flow, state updates and bookkeeping of the repository code are translated
     statement by statement. -/

namespace AryaPlatform

/-! ## Time helpers (datetime arithmetic on epoch seconds) -/

/-- Seconds per day. -/
def secPerDay : Int := 86400

/-- Models datetime.date() on an epoch-seconds instant: the calendar-day index
    of the wall clock carried by the instant (for a UTC instant, the UTC day). -/
def pyDate (t : Int) : Int := Int.fdiv t 86400

/-- Models datetime.hour of an epoch-seconds wall-clock instant. -/
def pyHour (t : Int) : Int := Int.emod (Int.fdiv t 3600) 24

/-- Models datetime.weekday(): Monday = 0 .. Sunday = 6
    (1970-01-01 was a Thursday, weekday 3). -/
def pyWeekday (t : Int) : Int := Int.emod (Int.fdiv t 86400 + 3) 7

/-! ## Regional configuration (ContentScheduler.__init__) -/

/-- app/models/models.py: RegionEnum with members US and UK. -/
inductive RegionEnum
  | US
  | UK
  deriving DecidableEq

/-- Fixed UTC offset in seconds modelling the pytz zones America/New_York
    (standard time, UTC-5) and Europe/London (GMT, UTC+0), the zones named by
    settings.TIMEZONE_US / settings.TIMEZONE_UK. -/
def regionalOffset : RegionEnum → Int
  | RegionEnum.US => -18000
  | RegionEnum.UK => 0

/-- scheduler.py lines 28-37: optimal posting hours by region; the Boolean key
    is the weekend flag (true = weekend list). -/
def optimal_posting_times : RegionEnum → Bool → List Nat
  | RegionEnum.US, false => [9, 12, 15, 18, 21]
  | RegionEnum.US, true  => [10, 13, 16, 19, 20]
  | RegionEnum.UK, false => [8, 12, 17, 19, 21]
  | RegionEnum.UK, true  => [9, 12, 15, 18, 20]

/-- scheduler.py line 41. -/
def min_interval_hours : Int := 2

/-- scheduler.py line 42. -/
def max_daily_posts : Nat := 6

/-- scheduler.py line 43. -/
def max_weekly_posts : Nat := 30

/-! ## Python list sorting (stable, as the sorted builtin) -/

/-- Stable insertion into a list sorted by le, placing the new element after
    every element le-before it; with foldl below this models the stability of
    the Python sorted builtin. -/
def pyInsertBy {α : Type} (le : α → α → Bool) (x : α) : List α → List α
  | [] => [x]
  | y :: ys => if le y x then y :: pyInsertBy le x ys else x :: y :: ys

/-- Models sorted(l, key=...) / sorted(l, key=..., reverse=True) depending on
    the comparison le passed in; stable. -/
def pySortBy {α : Type} (le : α → α → Bool) (l : List α) : List α :=
  l.foldl (fun acc x => pyInsertBy le x acc) []

/-- Models sorted(l) for instants. -/
def pySortAsc (l : List Int) : List Int :=
  pySortBy (fun a b => decide (a ≤ b)) l

/-! ## SlotAllocator: get_optimal_posting_times (scheduler.py 46-78) -/

/-- Models line 75 of scheduler.py.  Inside get_optimal_posting_times the
    name timezone is rebound (line 54) to the regional pytz timezone object,
    shadowing the datetime.timezone import; pytz tzinfo objects have no utc
    attribute, so evaluating timezone.utc raises AttributeError. -/
def pytzUtcAttr : Except String Int :=
  Except.error "AttributeError: timezone object has no attribute utc"

/-- Models datetime.replace(hour=h, minute=m, second=0, microsecond=0) on a
    local wall-clock instant; Python raises ValueError for an out-of-range
    hour or minute. -/
def pyReplaceHourMinute (t : Int) (h m : Nat) : Except String Int :=
  if h ≤ 23 ∧ m ≤ 59 then
    Except.ok (Int.fdiv t 86400 * 86400 + (h : Int) * 3600 + (m : Int) * 60)
  else Except.error "ValueError: hour or minute out of range"

/-- Models the truthiness-based default of line 62:
    page_preferences or regional default (None and the empty list are falsy). -/
def pyOrHours (prefs : Option (List Nat)) (dflt : List Nat) : List Nat :=
  match prefs with
  | none => dflt
  | some [] => dflt
  | some (h :: rest) => h :: rest

/-- The per-hour loop of scheduler.py lines 65-76: for each candidate hour,
    draw a random minute, build the local instant, then convert it to UTC via
    the shadowed timezone.utc attribute (which raises).  The conversion that
    the dead code after that access would perform is kept for completeness. -/
def buildOptimalTimes (offset localDate : Int) (js : Nat → Nat) :
    List Nat → Nat → Except String (List Int × Nat)
  | [], i => Except.ok ([], i)
  | h :: rest, i => do
    let m := js i % 60
    let optimalTime ← pyReplaceHourMinute localDate h m
    let _ ← pytzUtcAttr
    let utcTime := optimalTime - offset
    let (tail, i2) ← buildOptimalTimes offset localDate js rest (i + 1)
    Except.ok (utcTime :: tail, i2)

/-- scheduler.py lines 46-78: get_optimal_posting_times. -/
def get_optimal_posting_times (region : RegionEnum) (target_date : Int)
    (page_preferences : Option (List Nat)) (js : Nat → Nat) (i : Nat) :
    Except String (List Int × Nat) := do
  let offset := regionalOffset region
  let local_date := target_date + offset
  let is_weekend : Bool := decide (pyWeekday local_date ≥ 5)
  let optimal_hours := pyOrHours page_preferences (optimal_posting_times region is_weekend)
  let (times, i2) ← buildOptimalTimes offset local_date js optimal_hours i
  Except.ok (pySortAsc times, i2)

/-! ## SlotAllocator: calculate_next_posting_slot (scheduler.py 80-135) -/

/-- scheduler.py lines 121-135: _is_slot_available. -/
def is_slot_available (proposed_time : Int) (existing_posts : List Int)
    (min_gap_hours : Int) : Bool :=
  existing_posts.all fun e =>
    ! decide ((Int.natAbs (proposed_time - e) : Int) < min_gap_hours * 3600)

/-- The inner candidate loop of lines 103-110: skip candidates at or before
    now, return the first conflict-free one. -/
def findSlotInTimes (now : Int) (existing : List Int) : List Int → Option Int
  | [] => none
  | t :: rest =>
    if t ≤ now then findSlotInTimes now existing rest
    else if is_slot_available t existing 2 then some t
    else findSlotInTimes now existing rest

/-- The day loop of lines 93-110, over the list of days-ahead offsets. -/
def searchDays (region : RegionEnum) (existing : List Int)
    (prefs : Option (List Nat)) (now : Int) (js : Nat → Nat) :
    List Nat → Nat → Except String (Option Int × Nat)
  | [], i => Except.ok (none, i)
  | d :: rest, i => do
    let target_date := now + (d : Int) * secPerDay
    let (optimal_times, i2) ← get_optimal_posting_times region target_date prefs js i
    match findSlotInTimes now existing optimal_times with
    | some t => Except.ok (some t, i2)
    | none => searchDays region existing prefs now js rest i2

/-- Python min(candidates, key=lambda t: abs(t - base)): first minimum. -/
def closestTo (base : Int) (t0 : Int) (rest : List Int) : Int :=
  rest.foldl
    (fun best t =>
      if Int.natAbs (t - base) < Int.natAbs (best - base) then t else best) t0

/-- Python max(l) over a list of instants; none for the empty list. -/
def pyMax : List Int → Option Int
  | [] => none
  | t :: rest => some (rest.foldl (fun best x => if best < x then x else best) t)

/-- scheduler.py lines 137-161: _adjust_to_optimal_time. -/
def adjust_to_optimal_time (base_time : Int) (region : RegionEnum)
    (prefs : Option (List Nat)) (js : Nat → Nat) (i : Nat) :
    Except String (Int × Nat) := do
  let (optimal_times, i2) ← get_optimal_posting_times region base_time prefs js i
  match optimal_times with
  | [] => Except.ok (base_time, i2)
  | t0 :: rest => Except.ok (closestTo base_time t0 rest, i2)

/-- scheduler.py lines 80-119: calculate_next_posting_slot. -/
def calculate_next_posting_slot (region : RegionEnum) (existing_posts : List Int)
    (preferred_frequency_hours : Int) (prefs : Option (List Nat))
    (now_utc : Int) (js : Nat → Nat) (i : Nat) : Except String (Int × Nat) := do
  let (found, i2) ← searchDays region existing_posts prefs now_utc js
      (List.range 7) i
  match found with
  | some t => Except.ok (t, i2)
  | none =>
    let next_slot :=
      match pyMax existing_posts with
      | some last_post_time => last_post_time + preferred_frequency_hours * 3600
      | none => now_utc + 3600
    adjust_to_optimal_time next_slot region prefs js i2

/-- True when the embedded call raises (propagates a Python exception). -/
def pyRaises {α : Type} : Except String α → Bool
  | Except.error _ => true
  | Except.ok _ => false

/-! ## ScheduleValidator: validate_posting_schedule (scheduler.py 229-304) -/

inductive VError
  | pastTimes (n : Nat)
  deriving DecidableEq

inductive VWarning
  | dailyLimit (numDays maxDaily : Nat)
  | tooClose (t1 t2 : Int)
  | weeklyLimit (maxWeekly : Nat)
  deriving DecidableEq

inductive VSuggestion
  | outsideOptimal (n : Nat)
  deriving DecidableEq

structure ValidationReport where
  is_valid : Bool
  warnings : List VWarning
  errors : List VError
  suggested_adjustments : List VSuggestion
  deriving DecidableEq

/-- One step of the daily_counts accumulation (a Python dict keyed by date,
    keys in first-occurrence order). -/
def bumpCount (acc : List (Int × Nat)) (k : Int) : List (Int × Nat) :=
  match acc with
  | [] => [(k, 1)]
  | (k2, c) :: rest =>
    if k2 = k then (k2, c + 1) :: rest else (k2, c) :: bumpCount rest k

/-- scheduler.py lines 253-256: occurrences of each date key, insertion order. -/
def dailyCounts (sched : List Int) : List (Int × Nat) :=
  sched.foldl (fun acc t => bumpCount acc (pyDate t)) []

/-- scheduler.py lines 270-274: one warning per adjacent pair of the sorted
    schedule closer than the minimum interval. -/
def adjacentWarnings (min_interval : Int) : List Int → List VWarning
  | [] => []
  | [_] => []
  | a :: b :: rest =>
    (if b - a < min_interval then [VWarning.tooClose a b] else []) ++
      adjacentWarnings min_interval (b :: rest)

/-- scheduler.py lines 229-304: validate_posting_schedule. The page argument
    contributes only its region. -/
def validate_posting_schedule (region : RegionEnum) (proposed_schedule : List Int)
    (now_utc : Int) : ValidationReport :=
  let past_times := proposed_schedule.filter fun t => decide (t ≤ now_utc)
  let errors := if past_times.isEmpty then [] else [VError.pastTimes past_times.length]
  let is_valid := past_times.isEmpty
  let daily := dailyCounts proposed_schedule
  let over_limit_days := (daily.filter fun p => decide (max_daily_posts < p.2)).map Prod.fst
  let w1 := if over_limit_days.isEmpty then []
            else [VWarning.dailyLimit over_limit_days.length max_daily_posts]
  let sorted_times := pySortAsc proposed_schedule
  let w2 := adjacentWarnings (min_interval_hours * 3600) sorted_times
  let weekly_count := (proposed_schedule.filter fun t => decide (t ≤ now_utc + 7 * secPerDay)).length
  let w3 := if max_weekly_posts < weekly_count then [VWarning.weeklyLimit max_weekly_posts] else []
  let suboptimal := proposed_schedule.filter fun t =>
    let localT := t + regionalOffset region
    let hour := pyHour localT
    let is_weekend : Bool := ! decide (pyWeekday localT < 5)
    (optimal_posting_times region is_weekend).all fun h => ! decide ((h : Int) = hour)
  let suggested := if suboptimal.isEmpty then []
                   else [VSuggestion.outsideOptimal suboptimal.length]
  { is_valid := is_valid, warnings := w1 ++ w2 ++ w3, errors := errors,
    suggested_adjustments := suggested }

/-- The observable effect of one validate call on the caller: the report and
    the caller-visible final value of the schedule argument.  The source only
    reads the list (comprehensions and the sorted builtin produce fresh
    lists), so the translation hands the argument back unchanged. -/
def validate_posting_schedule_call (region : RegionEnum) (sched : List Int)
    (now_utc : Int) : ValidationReport × List Int :=
  (validate_posting_schedule region sched now_utc, sched)

/-- Two back-to-back validate calls on the same schedule and the same now:
    the pair of reports and the schedule left after both calls. -/
def validateTwice (region : RegionEnum) (sched : List Int) (now_utc : Int) :
    ValidationReport × ValidationReport × List Int :=
  let r1 := validate_posting_schedule_call region sched now_utc
  let r2 := validate_posting_schedule_call region r1.2 now_utc
  (r1.1, r2.1, r2.2)

/-! ## SlotAllocator: calculate_posting_frequency (scheduler.py 353-385) -/

/-- scheduler.py lines 353-385.  The engagement history dict enters as the
    list of its values; Python truthiness makes both None and an empty dict
    skip the history adjustment. -/
def calculate_posting_frequency (page_followers : Int)
    (content_quality_score : ℚ) (engagement_history : Option (List ℚ)) : Int :=
  let f1 : Int :=
    if page_followers > 100000 then 4
    else if page_followers > 50000 then 5
    else if page_followers < 1000 then 8
    else 6
  let f2 : Int :=
    if content_quality_score > 8/10 then max 2 (f1 - 1)
    else if content_quality_score < 5/10 then min 12 (f1 + 2)
    else f1
  match engagement_history with
  | none => f2
  | some [] => f2
  | some (v :: vs) =>
    let avg_engagement := (v :: vs).sum / ((v :: vs).length : ℚ)
    if avg_engagement > 5 then max 3 (f2 - 1)
    else if avg_engagement < 1 then min 12 (f2 + 2)
    else f2

/-! ## Specification-side definitions for the frequency claim (C9) -/

/-- Follower-count tier of the specification: base 6, then over 100k gives 4,
    else over 50k gives 5, else under 1k gives 8. -/
def specTierStep (followerCount : Int) (f : Int) : Int :=
  if followerCount > 100000 then 4
  else if followerCount > 50000 then 5
  else if followerCount < 1000 then 8
  else f

/-- Quality adjustment of the specification, clamped as it is applied. -/
def specQualityStep (quality : ℚ) (f : Int) : Int :=
  if quality > 8/10 then max 2 (f - 1)
  else if quality < 5/10 then min 12 (f + 2)
  else f

/-- History adjustment of the specification, applied only when a (non-empty)
    history is given, clamped as it is applied. -/
def specHistoryStep (history : Option (List ℚ)) (f : Int) : Int :=
  match history with
  | none => f
  | some [] => f
  | some (v :: vs) =>
    let m := (v :: vs).sum / ((v :: vs).length : ℚ)
    if m > 5 then max 3 (f - 1)
    else if m < 1 then min 12 (f + 2)
    else f

/-- The claim C9 formula: the three cumulative adjustment steps, in the fixed
    order tier, quality, history, starting from base 6. -/
def spec_recommendedFrequencyHours (followerCount : Int) (quality : ℚ)
    (history : Option (List ℚ)) : Int :=
  specHistoryStep history (specQualityStep quality (specTierStep followerCount 6))

/-! ## Optimization engine: data model (optimization.py 22-45) -/

/-- optimization.py lines 22-33: features extracted from content. -/
structure ContentFeatures where
  posting_hour : Int
  posting_weekday : Int
  caption_length : Nat
  hashtag_count : Nat
  has_image : Bool
  sentiment_score : ℚ
  readability_score : ℚ
  content_type : String
  regional_relevance_score : ℚ
  deriving DecidableEq

/-- optimization.py lines 36-45: standardized performance metrics. -/
structure PerformanceMetrics where
  engagement_rate : ℚ
  reach_rate : ℚ
  click_through_rate : ℚ
  total_reactions : Nat
  comments : Nat
  shares : Nat
  performance_score : ℚ
  deriving DecidableEq

/-- The scheduled_post sub-dict of a post-data record: the two timestamps the
    extractor reads (already parsed instants; the fromisoformat branch of the
    source handles the string form of the same data). -/
structure ScheduledPostData where
  actual_posted_time : Option Int
  scheduled_time : Option Int
  deriving DecidableEq

/-- The content_generation sub-dict: each field carries the dict.get default
    of the source (caption "", no image URL, sentiment 0.0, readability 50.0,
    content type mixed) when the surrounding system omits it. -/
structure ContentGenData where
  generated_caption : String
  generated_image_url : Option String
  sentiment_score : ℚ
  readability_score : ℚ
  content_type : String
  deriving DecidableEq

/-- The analytics sub-dict; numeric fields default to 0, total_reactions
    falls back to likes when absent, performance_score defaults to 0.0. -/
structure AnalyticsData where
  impressions : Nat
  reach : Nat
  engaged_users : Nat
  clicks : Nat
  likes : Nat
  comments : Nat
  shares : Nat
  total_reactions : Option Nat
  performance_score : ℚ
  deriving DecidableEq

/-- One entry of posts_data. -/
structure PostData where
  scheduled_post : ScheduledPostData
  content_generation : ContentGenData
  analytics : AnalyticsData
  deriving DecidableEq

/-! ## FeatureExtractor (optimization.py 117-251) -/

/-- Python truthiness of an optional string (None and "" are falsy),
    modelling bool(content_gen.get("generated_image_url")). -/
def pyTruthyStr : Option String → Bool
  | none => false
  | some s => ! (s == "")

/-- Occurrence test for a non-empty pattern, modelling the Python
    "keyword in caption_lower" substring operator. -/
def strContains (s pat : String) : Bool :=
  decide (1 < (s.splitOn pat).length)

/-- optimization.py line 207. -/
def us_keywords : List String :=
  ["dollar", "$", "america", "usa", "thanksgiving", "nfl", "superbowl"]

/-- optimization.py line 208. -/
def uk_keywords : List String :=
  ["pound", "£", "britain", "uk", "tea", "premier league", "bank holiday"]

/-- optimization.py lines 203-219: _calculate_regional_relevance (the unused
    content_gen parameter of the source is dropped). -/
def calculate_regional_relevance (caption : String) : ℚ :=
  let caption_lower := caption.toLower
  let us_score : Nat := (us_keywords.filter fun k => strContains caption_lower k).length
  let uk_score : Nat := (uk_keywords.filter fun k => strContains caption_lower k).length
  let max_possible : Nat := max us_keywords.length uk_keywords.length
  let relevance_score : ℚ :=
    if 0 < max_possible then ((max us_score uk_score : Nat) : ℚ) / (max_possible : ℚ)
    else 1/2
  min 1 relevance_score

/-- optimization.py lines 117-162: _extract_content_features. -/
def extract_content_features (post : PostData) : ContentFeatures :=
  let posted_time :=
    match post.scheduled_post.actual_posted_time with
    | some t => some t
    | none => post.scheduled_post.scheduled_time
  let posting_hour := match posted_time with | some t => pyHour t | none => 12
  let posting_weekday := match posted_time with | some t => pyWeekday t | none => 0
  let caption := post.content_generation.generated_caption
  { posting_hour := posting_hour
    posting_weekday := posting_weekday
    caption_length := caption.length
    hashtag_count := caption.toList.count '#'
    has_image := pyTruthyStr post.content_generation.generated_image_url
    sentiment_score := post.content_generation.sentiment_score
    readability_score := post.content_generation.readability_score
    content_type := post.content_generation.content_type
    regional_relevance_score := calculate_regional_relevance caption }

/-- optimization.py lines 221-251: _calculate_performance_score. -/
def calculate_performance_score (engagement_rate reach_rate ctr : ℚ)
    (reactions comments shares : Nat) : ℚ :=
  let social_score := min 1 (((reactions : ℚ) + (comments : ℚ) * 3 + (shares : ℚ) * 5) / 100)
  let score := (4/10) * (engagement_rate / 10) + (2/10) * (reach_rate / 100) +
    (2/10) * (ctr / 5) + (2/10) * social_score
  min 1 score

/-- optimization.py lines 164-201: _extract_performance_metrics. -/
def extract_performance_metrics (post : PostData) : PerformanceMetrics :=
  let a := post.analytics
  let reactions := a.total_reactions.getD a.likes
  let engagement_rate : ℚ := if 0 < a.reach then (a.engaged_users : ℚ) / (a.reach : ℚ) * 100 else 0
  let reach_rate : ℚ := if 0 < a.impressions then (a.reach : ℚ) / (a.impressions : ℚ) * 100 else 0
  let click_through_rate : ℚ := if 0 < a.impressions then (a.clicks : ℚ) / (a.impressions : ℚ) * 100 else 0
  let performance_score :=
    if a.performance_score = 0 then
      calculate_performance_score engagement_rate reach_rate click_through_rate
        reactions a.comments a.shares
    else a.performance_score
  { engagement_rate := engagement_rate
    reach_rate := reach_rate
    click_through_rate := click_through_rate
    total_reactions := reactions
    comments := a.comments
    shares := a.shares
    performance_score := performance_score }

/-! ## Numpy value model -/

/-- Result of numpy float64 arithmetic where a zero divisor is possible:
    numpy true division returns an infinity or nan (emitting a
    RuntimeWarning), unlike Python float division, which raises
    ZeroDivisionError. -/
inductive NpVal
  | fin (q : ℚ)
  | inf
  | ninf
  | nan
  deriving DecidableEq

/-- numpy float64 division of finite operands. -/
def npDiv (a b : ℚ) : NpVal :=
  if b = 0 then (if 0 < a then NpVal.inf else if a < 0 then NpVal.ninf else NpVal.nan)
  else NpVal.fin (a / b)

/-- Multiplication of a possibly-infinite value by 100. -/
def npMul100 : NpVal → NpVal
  | NpVal.fin q => NpVal.fin (q * 100)
  | v => v

/-- np.mean of a non-empty list (every call site below is guarded by a
    non-emptiness check, mirroring the source). -/
def npMean (l : List ℚ) : ℚ := l.sum / (l.length : ℚ)

/-! ## PatternAnalyzer (optimization.py 253-417) -/

/-- A per-bucket statistic: average engagement and sample count. -/
structure BucketStat where
  avg_engagement : ℚ
  post_count : Nat
  deriving DecidableEq

/-- avg_engagement is np.mean(rates) if rates else 0, post_count len(rates). -/
def bucketStat (rates : List ℚ) : BucketStat :=
  { avg_engagement := if rates.isEmpty then 0 else npMean rates
    post_count := rates.length }

/-- One step of a defaultdict(list) accumulation: append the value to the
    entry of the key, creating the entry at the end on first occurrence
    (Python dict insertion order). -/
def bumpAppend {κ : Type} [DecidableEq κ] (acc : List (κ × List ℚ)) (k : κ)
    (v : ℚ) : List (κ × List ℚ) :=
  match acc with
  | [] => [(k, [v])]
  | (k2, l) :: rest =>
    if k2 = k then (k2, l ++ [v]) :: rest else (k2, l) :: bumpAppend rest k v

/-- Grouped engagement rates keyed by a feature projection, in post order. -/
def groupRates {κ : Type} [DecidableEq κ] (key : ContentFeatures → κ)
    (pairs : List (ContentFeatures × PerformanceMetrics)) : List (κ × List ℚ) :=
  pairs.foldl (fun acc fp => bumpAppend acc (key fp.1) fp.2.engagement_rate) []

/-- Python max(items, key=...): the first maximum. -/
def pyMaxBy {α : Type} (key : α → ℚ) (x0 : α) (rest : List α) : α :=
  rest.foldl (fun best x => if key best < key x then x else best) x0

/-- optimization.py line 284. -/
def weekday_names : List String :=
  ["Monday", "Tuesday", "Wednesday", "Thursday", "Friday", "Saturday", "Sunday"]

/-- Output of _analyze_posting_times. -/
structure TimeAnalysis where
  best_hours : List (Int × BucketStat)
  best_weekdays : List (String × BucketStat)
  optimal_hours : List Int
  avoid_hours : List Int
  deriving DecidableEq

/-- optimization.py lines 253-299: _analyze_posting_times.  Weekday indices
    produced by the extractor always lie in 0..6, so the list indexing into
    weekday_names cannot fail; the getD default is never reached. -/
def analyze_posting_times (features : List ContentFeatures)
    (performance : List PerformanceMetrics) : TimeAnalysis :=
  let pairs := features.zip performance
  let hour_performance := groupRates (fun f => f.posting_hour) pairs
  let weekday_performance := groupRates (fun f => f.posting_weekday) pairs
  let best_hours := hour_performance.map fun p => (p.1, BucketStat.mk (npMean p.2) p.2.length)
  let sorted_hours :=
    pySortBy (fun a b => decide (b.2.avg_engagement ≤ a.2.avg_engagement)) best_hours
  let best_weekdays := weekday_performance.map fun p =>
    (weekday_names.getD p.1.toNat "", BucketStat.mk (npMean p.2) p.2.length)
  { best_hours := sorted_hours.take 5
    best_weekdays := best_weekdays
    optimal_hours := (sorted_hours.take 3).map Prod.fst
    avoid_hours := (sorted_hours.drop (sorted_hours.length - 2)).map Prod.fst }

/-- optimization.py lines 309-314: the first caption-length bucket containing
    the length (the loop breaks after the first hit; lengths of 1000 or more
    fall in no bucket). -/
def lengthBucketOf (n : Nat) : Option String :=
  if n < 100 then some "short"
  else if 100 ≤ n ∧ n < 200 then some "medium"
  else if 200 ≤ n ∧ n < 300 then some "long"
  else if 300 ≤ n ∧ n < 1000 then some "very_long"
  else none

/-- Grouped rates keyed by an optional bucket, skipping unbucketed samples. -/
def groupRatesOpt {κ : Type} [DecidableEq κ] (key : ContentFeatures → Option κ)
    (pairs : List (ContentFeatures × PerformanceMetrics)) : List (κ × List ℚ) :=
  pairs.foldl
    (fun acc fp =>
      match key fp.1 with
      | some k => bumpAppend acc k fp.2.engagement_rate
      | none => acc) []

/-- Output of _analyze_content_patterns. -/
structure ContentAnalysis where
  caption_length_analysis : List (String × BucketStat)
  hashtag_analysis : List (Nat × BucketStat)
  image_with : BucketStat
  image_without : BucketStat
  deriving DecidableEq

/-- optimization.py lines 301-363: _analyze_content_patterns. -/
def analyze_content_patterns (features : List ContentFeatures)
    (performance : List PerformanceMetrics) : ContentAnalysis :=
  let pairs := features.zip performance
  let length_performance := groupRatesOpt (fun f => lengthBucketOf f.caption_length) pairs
  let hashtag_performance := groupRates (fun f => min f.hashtag_count 10) pairs
  let with_image := (pairs.filter fun fp => fp.1.has_image).map fun fp => fp.2.engagement_rate
  let without_image := (pairs.filter fun fp => ! fp.1.has_image).map fun fp => fp.2.engagement_rate
  { caption_length_analysis := length_performance.map fun p => (p.1, bucketStat p.2)
    hashtag_analysis := hashtag_performance.map fun p => (p.1, bucketStat p.2)
    image_with := bucketStat with_image
    image_without := bucketStat without_image }

/-- optimization.py lines 373-377: first sentiment bucket containing the
    score (a score of exactly 1 falls in no bucket). -/
def sentimentBucketOf (s : ℚ) : Option String :=
  if -1 ≤ s ∧ s < -(3/10) then some "negative"
  else if -(3/10) ≤ s ∧ s < 3/10 then some "neutral"
  else if 3/10 ≤ s ∧ s < 1 then some "positive"
  else none

/-- optimization.py lines 388-392: first relevance bucket containing the
    score (a score of exactly 1 falls in no bucket). -/
def relevanceBucketOf (r : ℚ) : Option String :=
  if 0 ≤ r ∧ r < 3/10 then some "low"
  else if 3/10 ≤ r ∧ r < 7/10 then some "medium"
  else if 7/10 ≤ r ∧ r < 1 then some "high"
  else none

/-- Output of _analyze_engagement_patterns. -/
structure EngagementInsights where
  sentiment_impact : List (String × BucketStat)
  regional_relevance_impact : List (String × BucketStat)
  deriving DecidableEq

/-- optimization.py lines 365-417: _analyze_engagement_patterns. -/
def analyze_engagement_patterns (features : List ContentFeatures)
    (performance : List PerformanceMetrics) : EngagementInsights :=
  let pairs := features.zip performance
  let sentiment_performance := groupRatesOpt (fun f => sentimentBucketOf f.sentiment_score) pairs
  let relevance_performance :=
    groupRatesOpt (fun f => relevanceBucketOf f.regional_relevance_score) pairs
  { sentiment_impact := sentiment_performance.map fun p => (p.1, bucketStat p.2)
    regional_relevance_impact := relevance_performance.map fun p => (p.1, bucketStat p.2) }

/-! ## RecommendationEngine (optimization.py 419-508) -/

/-- The semantic payload of each recommendation dict (the fixed template
    strings, priorities and confidence constants of the source are
    presentation and carried by the constructor identity). -/
inductive Recommendation
  | posting_time (best_hours : List Int)
  | content_length (bucket : String)
  | visual_content (improvement_pct : NpVal)
  | hashtags (count : Nat)
  | content_tone (bucket : String)
  deriving DecidableEq

/-- optimization.py lines 419-508: _generate_optimization_recommendations.
    The image recommendation formats ((with - without) / without * 100);
    both means are numpy float64 values, so a zero without-image mean yields
    an infinite percentage, not a ZeroDivisionError. -/
def generate_optimization_recommendations (time_analysis : TimeAnalysis)
    (content_analysis : ContentAnalysis) (engagement : EngagementInsights) :
    List Recommendation :=
  let r1 := if time_analysis.best_hours.isEmpty then []
            else [Recommendation.posting_time ((time_analysis.best_hours.take 3).map Prod.fst)]
  let r2 :=
    match content_analysis.caption_length_analysis with
    | [] => []
    | x :: xs =>
      [Recommendation.content_length (pyMaxBy (fun p => p.2.avg_engagement) x xs).1]
  let with_image_eng := content_analysis.image_with.avg_engagement
  let without_image_eng := content_analysis.image_without.avg_engagement
  let r3 := if without_image_eng * (12/10) < with_image_eng then
      [Recommendation.visual_content (npMul100 (npDiv (with_image_eng - without_image_eng) without_image_eng))]
    else []
  let r4 :=
    match content_analysis.hashtag_analysis with
    | [] => []
    | x :: xs =>
      [Recommendation.hashtags (pyMaxBy (fun p => p.2.avg_engagement) x xs).1]
  let r5 :=
    match engagement.sentiment_impact with
    | [] => []
    | x :: xs =>
      [Recommendation.content_tone (pyMaxBy (fun p => p.2.avg_engagement) x xs).1]
  r1 ++ r2 ++ r3 ++ r4 ++ r5

/-- Result of analyze_content_performance: the error dict or the full
    analysis dict. -/
inductive AnalysisResult
  | failure (msg : String)
  | report (total_posts_analyzed : Nat) (time_analysis : TimeAnalysis)
      (content_analysis : ContentAnalysis) (engagement_insights : EngagementInsights)
      (recommendations : List Recommendation)
  deriving DecidableEq

/-- optimization.py lines 72-115: analyze_content_performance.  With typed
    post records the per-post extraction cannot raise, so the
    try/except/continue loop keeps every post. -/
def analyze_content_performance (page_id : Int) (posts_data : List PostData) :
    AnalysisResult :=
  if posts_data.length < 10 then
    AnalysisResult.failure "Insufficient data for analysis (minimum 10 posts required)"
  else
    let _ := page_id
    let features_list := posts_data.map extract_content_features
    let performance_list := posts_data.map extract_performance_metrics
    if features_list.length < 5 then
      AnalysisResult.failure "Insufficient valid data for analysis"
    else
      let ta := analyze_posting_times features_list performance_list
      let ca := analyze_content_patterns features_list performance_list
      let ei := analyze_engagement_patterns features_list performance_list
      AnalysisResult.report features_list.length ta ca ei
        (generate_optimization_recommendations ta ca ei)

/-- True when an analysis call produced the full report (did not fail). -/
def resultIsReport : AnalysisResult → Bool
  | AnalysisResult.report _ _ _ _ _ => true
  | AnalysisResult.failure _ => false

/-- True when the report carries a visual-content recommendation whose
    expected-improvement percentage is the infinity produced by a
    zero-divisor numpy division. -/
def reportHasInfImageRec : AnalysisResult → Bool
  | AnalysisResult.report _ _ _ _ recs =>
    recs.any fun r =>
      match r with
      | Recommendation.visual_content NpVal.inf => true
      | _ => false
  | AnalysisResult.failure _ => false

/-! ## PerformancePredictor state (optimization.py 48-70, 510-629)

sklearn estimators are external collaborators.  Their persistent state is
modelled explicitly: a fitted StandardScaler stores per-column means and
variances, a fitted LinearRegression stores its parameter list.  The fit
routine and the two numeric routines whose values leave the rationals
(StandardScaler.transform divides by the square root of the variance;
LinearRegression.predict applies the fitted coefficients) enter as function
parameters; every claim below concerns the control flow and state handling of
the repository code, never the numeric output of those routines. -/

/-- Fitted StandardScaler parameters: per-column means and variances. -/
abbrev ScalerParams := List ℚ × List ℚ

/-- Per-metric bookkeeping (optimization.py lines 66-70). -/
structure MetricPerf where
  accuracy : ℚ
  last_trained : Option Int
  deriving DecidableEq

/-- Mutable state of a ContentOptimizationEngine instance: the scaler and the
    three per-metric models (none = never fitted) plus the bookkeeping. -/
structure PredState where
  scaler : Option ScalerParams
  engagement_model : Option (List ℚ)
  reach_model : Option (List ℚ)
  click_model : Option (List ℚ)
  perf_engagement : MetricPerf
  perf_reach : MetricPerf
  perf_click : MetricPerf
  deriving DecidableEq

/-- optimization.py lines 48-70: the state right after __init__. -/
def initPredState : PredState :=
  { scaler := none, engagement_model := none, reach_model := none,
    click_model := none,
    perf_engagement := { accuracy := 0, last_trained := none },
    perf_reach := { accuracy := 0, last_trained := none },
    perf_click := { accuracy := 0, last_trained := none } }

/-- optimization.py lines 581-599: _features_to_array, one row. -/
def features_to_array1 (f : ContentFeatures) : List ℚ :=
  [ (f.posting_hour : ℚ) / 24,
    (f.posting_weekday : ℚ) / 6,
    min ((f.caption_length : ℚ) / 300) 1,
    min ((f.hashtag_count : ℚ) / 10) 1,
    if f.has_image then 1 else 0,
    (f.sentiment_score + 1) / 2,
    f.readability_score / 100,
    f.regional_relevance_score ]

/-- optimization.py lines 581-599: _features_to_array. -/
def features_to_array (fs : List ContentFeatures) : List (List ℚ) :=
  fs.map features_to_array1

/-- Column j of a feature matrix. -/
def columnOf (X : List (List ℚ)) (j : Nat) : List ℚ :=
  X.map fun row => row.getD j 0

/-- StandardScaler.fit on a non-empty matrix: per-column mean and
    (population) variance, exactly what sklearn stores as mean_ and var_. -/
def scalerFit (X : List (List ℚ)) : ScalerParams :=
  let ncols := (X.headD []).length
  ((List.range ncols).map fun j => npMean (columnOf X j),
   (List.range ncols).map fun j =>
     let c := columnOf X j
     let m := npMean c
     npMean (c.map fun x => (x - m) ^ 2))

/-- sklearn.metrics.mean_squared_error of the validation targets against the
    model predictions on the validation rows. -/
def mseOf (mpredict : List ℚ → List ℚ → ℚ) (m : List ℚ)
    (Xval : List (List ℚ)) (yval : List ℚ) : ℚ :=
  npMean (List.zipWith (fun a b => (a - b) ^ 2) yval (Xval.map (mpredict m)))

/-- optimization.py line 533: int(len(X_scaled) * 0.8).  For the float
    multiplication, truncation agrees with the exact floor of 4n/5 at every
    sample count that reaches this line. -/
def trainSplit (n : Nat) : Nat := n * 8 / 10

/-- The scaled matrix a training call works on: the scaler fitted on the
    feature matrix, then applied to every row. -/
def trainScaled (stransform : ScalerParams → List ℚ → List ℚ)
    (fd : List ContentFeatures) : List (List ℚ) :=
  (features_to_array fd).map (stransform (scalerFit (features_to_array fd)))

/-- The training rows of a training call (first 80 percent, original order). -/
def trainXtrain (stransform : ScalerParams → List ℚ → List ℚ)
    (fd : List ContentFeatures) : List (List ℚ) :=
  (trainScaled stransform fd).take (trainSplit fd.length)

/-- The validation rows of a training call (last 20 percent). -/
def trainXval (stransform : ScalerParams → List ℚ → List ℚ)
    (fd : List ContentFeatures) : List (List ℚ) :=
  (trainScaled stransform fd).drop (trainSplit fd.length)

/-- The engagement-rate target list of a training call. -/
def trainYe (pd : List PerformanceMetrics) : List ℚ :=
  pd.map fun p => p.engagement_rate

/-- The reach-rate target list of a training call. -/
def trainYr (pd : List PerformanceMetrics) : List ℚ :=
  pd.map fun p => p.reach_rate

/-- The click-through-rate target list of a training call. -/
def trainYc (pd : List PerformanceMetrics) : List ℚ :=
  pd.map fun p => p.click_through_rate

/-- The training report dict: per-metric validation MSE entries as far as
    training got, and the error entry set by the except block. -/
structure TrainReport where
  engagement_mse : Option ℚ
  reach_mse : Option ℚ
  clicks_mse : Option ℚ
  error : Option String
  deriving DecidableEq

/-- optimization.py lines 510-579: train_predictive_models.

    fit is LinearRegression.fit (an Except, since sklearn raises on
    degenerate inputs; the raise is caught by the except block of the
    source), mpredict is LinearRegression.predict on one row, stransform is
    StandardScaler.transform with given fitted parameters.

    Note the order of effects in the source: scaler.fit_transform updates the
    scaler before the try block, and each model is fitted and assigned in
    sequence inside it, so an exception raised by a later fit leaves the new
    scaler and every earlier model in place. -/
def train_predictive_models
    (fit : List (List ℚ) → List ℚ → Except String (List ℚ))
    (mpredict : List ℚ → List ℚ → ℚ)
    (stransform : ScalerParams → List ℚ → List ℚ)
    (now : Int) (st : PredState)
    (features_data : List ContentFeatures)
    (performance_data : List PerformanceMetrics) : PredState × TrainReport :=
  if features_data.length < 20 then
    (st, { engagement_mse := none, reach_mse := none, clicks_mse := none,
           error := some "Need at least 20 data points for training" })
  else
    let split_idx := trainSplit features_data.length
    let X_train := trainXtrain stransform features_data
    let X_val := trainXval stransform features_data
    let st1 := { st with scaler := some (scalerFit (features_to_array features_data)) }
    let ye_train := (trainYe performance_data).take split_idx
    let ye_val := (trainYe performance_data).drop split_idx
    let yr_train := (trainYr performance_data).take split_idx
    let yr_val := (trainYr performance_data).drop split_idx
    let yc_train := (trainYc performance_data).take split_idx
    let yc_val := (trainYc performance_data).drop split_idx
    match fit X_train ye_train with
    | Except.error e =>
      (st1, { engagement_mse := none, reach_mse := none, clicks_mse := none,
              error := some e })
    | Except.ok mE =>
      let st2 := { st1 with engagement_model := some mE }
      let engagement_mse := mseOf mpredict mE X_val ye_val
      match fit X_train yr_train with
      | Except.error e =>
        (st2, { engagement_mse := some engagement_mse, reach_mse := none,
                clicks_mse := none, error := some e })
      | Except.ok mR =>
        let st3 := { st2 with reach_model := some mR }
        let reach_mse := mseOf mpredict mR X_val yr_val
        match fit X_train yc_train with
        | Except.error e =>
          (st3, { engagement_mse := some engagement_mse,
                  reach_mse := some reach_mse, clicks_mse := none,
                  error := some e })
        | Except.ok mC =>
          let clicks_mse := mseOf mpredict mC X_val yc_val
          let st4 := { st3 with
            click_model := some mC,
            perf_engagement := { accuracy := 1 / (1 + engagement_mse), last_trained := some now },
            perf_reach := { accuracy := 1 / (1 + reach_mse), last_trained := some now },
            perf_click := { accuracy := 1 / (1 + clicks_mse), last_trained := some now } }
          (st4, { engagement_mse := some engagement_mse,
                  reach_mse := some reach_mse, clicks_mse := some clicks_mse,
                  error := none })

/-- The predictions dict of predict_content_performance (the except block of
    the source can never fire with pure collaborator routines, so no error
    key is modelled here; the raise that can happen is outside the try). -/
structure Predictions where
  engagement_rate : Option ℚ
  reach_rate : Option ℚ
  click_through_rate : Option ℚ
  overall_score : Option ℚ
  deriving DecidableEq

/-- optimization.py lines 601-629: predict_content_performance.
    scaler.transform is called before anything else and outside the try
    block: on a never-fitted scaler sklearn raises NotFittedError, which
    propagates to the caller.  A model contributes a prediction exactly when
    it has been fitted (hasattr coef_). -/
def predict_content_performance
    (stransform : ScalerParams → List ℚ → List ℚ)
    (mpredict : List ℚ → List ℚ → ℚ)
    (st : PredState) (features : ContentFeatures) : Except String Predictions :=
  match st.scaler with
  | none => Except.error "NotFittedError: StandardScaler instance is not fitted yet"
  | some sc =>
    let row := (features_to_array [features]).map (stransform sc) |>.headD []
    let pe := st.engagement_model.map fun m => max 0 (mpredict m row)
    let pr := st.reach_model.map fun m => max 0 (mpredict m row)
    let pc := st.click_model.map fun m => max 0 (mpredict m row)
    let vals := [pe, pr, pc].filterMap id
    let overall := if vals.isEmpty then none else some (min 1 (npMean vals / 10))
    Except.ok { engagement_rate := pe, reach_rate := pr,
                click_through_rate := pc, overall_score := overall }

/-- One suggestion dict of the what-if search (never constructed by the
    source as written: the variant list raises first). -/
structure Suggestion where
  description : String
  expected_improvement : ℚ
  confidence : ℚ
  predicted_score : ℚ
  deriving DecidableEq

/-- optimization.py lines 631-685: get_content_optimization_suggestions.
    After the current prediction is obtained, the test_features list literal
    is built by calling features._replace(...).  ContentFeatures is a
    dataclass, and dataclasses have no _replace method (that is the NamedTuple
    API), so the first variant construction raises AttributeError; nothing
    after the list literal is reachable. -/
def get_content_optimization_suggestions
    (stransform : ScalerParams → List ℚ → List ℚ)
    (mpredict : List ℚ → List ℚ → ℚ)
    (st : PredState) (features : ContentFeatures) (target_improvement : ℚ) :
    Except String (List Suggestion) :=
  match predict_content_performance stransform mpredict st features with
  | Except.error e => Except.error e
  | Except.ok current_prediction =>
    let _current_score := current_prediction.overall_score.getD (1/2)
    let _ := target_improvement
    Except.error "AttributeError: ContentFeatures object has no attribute _replace"

/-! ## Concrete records shared by the witnesses and counterexamples -/

/-- A feature record with every per-field default of the extractor. -/
def feat0 : ContentFeatures :=
  { posting_hour := 12, posting_weekday := 0, caption_length := 0,
    hashtag_count := 0, has_image := false, sentiment_score := 0,
    readability_score := 50, content_type := "mixed",
    regional_relevance_score := 0 }

/-- A post record carrying only defaults: no timestamps, empty caption, no
    image, neutral sentiment, readability 50, all-zero analytics. -/
def postBlank : PostData :=
  ⟨⟨none, none⟩, ⟨"", none, 0, 50, "mixed"⟩, ⟨0, 0, 0, 0, 0, 0, 0, none, 0⟩⟩

/-- A constant minute-jitter stream. -/
def jsHalf : Nat → Nat := fun _ => 30

/-- A metrics record whose engagement rate (5) and reach rate (7) differ, so
    a fit routine can fail on one target list and not the other. -/
def perfCex : PerformanceMetrics :=
  { engagement_rate := 5, reach_rate := 7, click_through_rate := 1,
    total_reactions := 0, comments := 0, shares := 0, performance_score := 0 }

/-- Twenty identical feature rows: enough samples to reach the fitting code. -/
def fdCex : List ContentFeatures := List.replicate 20 feat0

/-- Twenty identical outcome rows paired with fdCex. -/
def pdCex : List PerformanceMetrics := List.replicate 20 perfCex

/-- A fit routine that fails exactly on the reach-rate target list of pdCex
    (its head is 7) and succeeds on every other target: a concrete instance
    of sklearn raising mid-way through a training call. -/
def fitCex : List (List ℚ) → List ℚ → Except String (List ℚ) :=
  fun _X y => if y.headD 0 = 7 then Except.error "singular matrix" else Except.ok [1]

/-- A trivial transform standing in for StandardScaler.transform. -/
def idTransform : ScalerParams → List ℚ → List ℚ := fun _ r => r

/-- A trivial regression predict. -/
def zeroPredict : List ℚ → List ℚ → ℚ := fun _ _ => 0

/-- Five image posts with engagement rate 10 and five imageless posts with
    engagement rate 0: at least ten samples, the without-image bucket mean is
    exactly zero, the with-image mean is positive. -/
def postImg : PostData :=
  ⟨⟨none, none⟩, ⟨"", some "http img", 0, 50, "photo"⟩,
    ⟨100, 100, 10, 0, 0, 0, 0, none, 0⟩⟩

/-- An imageless post whose engagement rate is exactly zero
    (reach 100, engaged users 0). -/
def postNoImg : PostData :=
  ⟨⟨none, none⟩, ⟨"", none, 0, 50, "text"⟩,
    ⟨100, 100, 0, 0, 0, 0, 0, none, 0⟩⟩

/-- The ten-sample analysis input for the image-impact division. -/
def postsCex : List PostData :=
  List.replicate 5 postImg ++ List.replicate 5 postNoImg

/-- Seven UTC instants on 2026-01-07/08 that share one America/New_York
    calendar day (the regional offset is -5 h at these instants): five on the
    UTC day of Jan 7 and two in the first hours of the UTC day of Jan 8. -/
def schedCex : List Int :=
  [1767812400, 1767816000, 1767819600, 1767823200, 1767826800, 1767834000, 1767841200]

/-! ## Supporting lemmas: the shadowed timezone access raises everywhere -/

theorem optimal_hours_ne_nil (r : RegionEnum) (b : Bool) :
    optimal_posting_times r b ≠ [] := by
  cases r <;> cases b <;> simp [optimal_posting_times]

theorem pyOrHours_ne_nil (prefs : Option (List Nat)) (r : RegionEnum) (b : Bool) :
    pyOrHours prefs (optimal_posting_times r b) ≠ [] := by
  cases prefs with
  | none => simpa [pyOrHours] using optimal_hours_ne_nil r b
  | some l =>
    cases l with
    | nil => simpa [pyOrHours] using optimal_hours_ne_nil r b
    | cons h t => simp [pyOrHours]

theorem pyRaises_bind {α β : Type} (x : Except String α) (f : α → Except String β)
    (h : pyRaises x = true) : pyRaises (x >>= f) = true := by
  cases x with
  | error e => rfl
  | ok a => simp [pyRaises] at h

theorem buildOptimalTimes_cons_raises (offset localDate : Int) (js : Nat → Nat)
    (h : Nat) (rest : List Nat) (i : Nat) :
    pyRaises (buildOptimalTimes offset localDate js (h :: rest) i) = true := by
  simp only [buildOptimalTimes]
  cases pyReplaceHourMinute localDate h (js i % 60) <;> rfl

theorem buildOptimalTimes_raises (offset localDate : Int) (js : Nat → Nat)
    (l : List Nat) (hne : l ≠ []) (i : Nat) :
    pyRaises (buildOptimalTimes offset localDate js l i) = true := by
  cases l with
  | nil => exact absurd rfl hne
  | cons h rest => exact buildOptimalTimes_cons_raises offset localDate js h rest i

theorem get_optimal_posting_times_raises (region : RegionEnum) (target : Int)
    (prefs : Option (List Nat)) (js : Nat → Nat) (i : Nat) :
    pyRaises (get_optimal_posting_times region target prefs js i) = true := by
  simp only [get_optimal_posting_times]
  exact pyRaises_bind _ _
    (buildOptimalTimes_raises _ _ _ _ (pyOrHours_ne_nil _ _ _) _)

theorem searchDays_cons_raises (region : RegionEnum) (existing : List Int)
    (prefs : Option (List Nat)) (now : Int) (js : Nat → Nat)
    (d : Nat) (rest : List Nat) (i : Nat) :
    pyRaises (searchDays region existing prefs now js (d :: rest) i) = true := by
  unfold searchDays
  exact pyRaises_bind _ _ (get_optimal_posting_times_raises _ _ _ _ _)

/-! ## Claim theorems -/

/-- C9 (confirmed): for every follower count, quality score and optional
    engagement history, calculate_posting_frequency computes exactly the
    cumulative base-6 tier/quality/history formula of the specification,
    clamped after each step. -/
theorem C9_frequency_matches_spec (followerCount : Int) (quality : ℚ)
    (history : Option (List ℚ)) :
    calculate_posting_frequency followerCount quality history =
      spec_recommendedFrequencyHours followerCount quality history := by
  unfold calculate_posting_frequency spec_recommendedFrequencyHours
    specHistoryStep specQualityStep specTierStep
  cases history with
  | none => rfl
  | some l => cases l <;> rfl

/-- C8 (confirmed): the bucket analysis on fewer than ten samples returns
    the explicit insufficient-data result (and, being total, cannot raise or
    produce an empty successful report). -/
theorem C8_insufficient_data (page_id : Int) (posts : List PostData)
    (h : posts.length < 10) :
    analyze_content_performance page_id posts =
      AnalysisResult.failure "Insufficient data for analysis (minimum 10 posts required)" := by
  unfold analyze_content_performance
  rw [if_pos h]

/-- Witness for C8 at a concrete five-sample input. -/
theorem C8_insufficient_data_witness :
    (List.replicate 5 postBlank).length < 10 ∧
      analyze_content_performance 1 (List.replicate 5 postBlank) =
        AnalysisResult.failure "Insufficient data for analysis (minimum 10 posts required)" :=
  ⟨by decide, C8_insufficient_data 1 _ (by decide)⟩

/-- C6 (confirmed): validate is pure — two calls on the same schedule,
    region and now produce identical reports, and the schedule the caller
    holds afterwards is the input schedule, order and values untouched. -/
theorem C6_validate_pure (region : RegionEnum) (sched : List Int) (now_utc : Int) :
    (validateTwice region sched now_utc).1 = (validateTwice region sched now_utc).2.1 ∧
      (validateTwice region sched now_utc).2.2 = sched :=
  ⟨rfl, rfl⟩

/-- C3 (amended): on a predictor whose training has never got past the
    sample-count guard, predict raises the scaler not-fitted error for every
    feature record; no untrained marker is returned. -/
theorem C3_amended_untrained_predict_raises
    (stransform : ScalerParams → List ℚ → List ℚ)
    (mpredict : List ℚ → List ℚ → ℚ) (features : ContentFeatures) :
    predict_content_performance stransform mpredict initPredState features =
      Except.error "NotFittedError: StandardScaler instance is not fitted yet" := rfl

/-- C3 counterexample: at a concrete feature record and concrete collaborator
    routines, predict on the untrained predictor raises, contradicting the
    claim that it returns an untrained marker and never raises. -/
theorem C3_counterexample :
    pyRaises (predict_content_performance idTransform zeroPredict initPredState feat0) = true := rfl

/-- C5: the what-if suggestion search raises on every input — after the
    current prediction is computed, the variant list is built with
    ContentFeatures._replace, which dataclasses do not have. -/
theorem C5_suggestions_always_raise
    (stransform : ScalerParams → List ℚ → List ℚ)
    (mpredict : List ℚ → List ℚ → ℚ)
    (st : PredState) (features : ContentFeatures) (target : ℚ) :
    pyRaises (get_content_optimization_suggestions stransform mpredict st features target) = true := by
  unfold get_content_optimization_suggestions
  cases predict_content_performance stransform mpredict st features <;> rfl

/-- C4: evaluating get_optimal_posting_times at a concrete valid input
    (region US, 2026-01-07 noon UTC, no page preference) raises the
    AttributeError produced by the shadowed timezone name instead of
    returning the optimal-times list. -/
theorem C4_optimal_times_raise :
    get_optimal_posting_times RegionEnum.US 1767787200 none jsHalf 0 =
      Except.error "AttributeError: timezone object has no attribute utc" := rfl

/-- C1 (amended): calculate_next_posting_slot never returns an instant —
    every call, for every region, existing-post list, frequency, preference
    list, clock and jitter stream, propagates the AttributeError raised
    inside get_optimal_posting_times on the first candidate of the first
    day, before the fallback path can run. -/
theorem C1_amended_next_slot_always_raises (region : RegionEnum)
    (existing : List Int) (freq : Int) (prefs : Option (List Nat))
    (now_utc : Int) (js : Nat → Nat) (i : Nat) :
    pyRaises (calculate_next_posting_slot region existing freq prefs now_utc js i) = true := by
  unfold calculate_next_posting_slot
  have hr : List.range 7 = 0 :: [1, 2, 3, 4, 5, 6] := rfl
  rw [hr]
  exact pyRaises_bind _ _ (searchDays_cons_raises _ _ _ _ _ _ _ _)

/-- C1 counterexample: with a non-empty list of existing instants the call
    raises instead of returning a conflict-free future instant, so the
    claimed guarantee about every returned instant never obtains. -/
theorem C1_counterexample :
    calculate_next_posting_slot RegionEnum.US [1767812400] 6 none 1767744000 jsHalf 0 =
      Except.error "AttributeError: timezone object has no attribute utc" := rfl

/-- C2 (amended): when the fit of the reach model raises after the
    engagement model was fitted, the call returns the error in its report,
    yet the scaler already holds its newly fitted parameters and the
    engagement model its new coefficients; only the models after the failure
    point and the bookkeeping keep their prior values — training is not
    atomic. -/
theorem C2_amended_partial_update
    (fit : List (List ℚ) → List ℚ → Except String (List ℚ))
    (mpredict : List ℚ → List ℚ → ℚ)
    (stransform : ScalerParams → List ℚ → List ℚ)
    (now : Int) (st : PredState)
    (fd : List ContentFeatures) (pd : List PerformanceMetrics)
    (mE : List ℚ) (e : String)
    (h20 : ¬ fd.length < 20)
    (hE : fit (trainXtrain stransform fd) ((trainYe pd).take (trainSplit fd.length)) = Except.ok mE)
    (hR : fit (trainXtrain stransform fd) ((trainYr pd).take (trainSplit fd.length)) = Except.error e) :
    (train_predictive_models fit mpredict stransform now st fd pd).2.error = some e ∧
    (train_predictive_models fit mpredict stransform now st fd pd).1.scaler =
      some (scalerFit (features_to_array fd)) ∧
    (train_predictive_models fit mpredict stransform now st fd pd).1.engagement_model = some mE ∧
    (train_predictive_models fit mpredict stransform now st fd pd).1.reach_model = st.reach_model ∧
    (train_predictive_models fit mpredict stransform now st fd pd).1.click_model = st.click_model ∧
    (train_predictive_models fit mpredict stransform now st fd pd).1.perf_engagement = st.perf_engagement ∧
    (train_predictive_models fit mpredict stransform now st fd pd).1.perf_reach = st.perf_reach ∧
    (train_predictive_models fit mpredict stransform now st fd pd).1.perf_click = st.perf_click := by
  simp only [train_predictive_models, if_neg h20, hE, hR]
  exact ⟨trivial, trivial, trivial, trivial, trivial, trivial, trivial, trivial⟩

/-- Witness for C2 (amended) at the concrete twenty-sample input on which
    the fit of the reach target fails. -/
theorem C2_amended_partial_update_witness :
    (train_predictive_models fitCex zeroPredict idTransform 0 initPredState fdCex pdCex).2.error =
      some "singular matrix" ∧
    (train_predictive_models fitCex zeroPredict idTransform 0 initPredState fdCex pdCex).1.engagement_model =
      some [1] :=
  ⟨(C2_amended_partial_update fitCex zeroPredict idTransform 0 initPredState fdCex pdCex
      [1] "singular matrix" (by decide) rfl rfl).1,
   (C2_amended_partial_update fitCex zeroPredict idTransform 0 initPredState fdCex pdCex
      [1] "singular matrix" (by decide) rfl rfl).2.2.1⟩

/-- C2 counterexample: at a concrete twenty-sample training call whose reach
    fit fails, the call returns an error report, yet the scaler and the
    engagement model differ from their prior (initial) values while the click
    model was never updated — neither disjunct of the claimed atomicity
    holds. -/
theorem C2_atomicity_counterexample :
    (train_predictive_models fitCex zeroPredict idTransform 0 initPredState fdCex pdCex).2.error.isSome = true ∧
    (train_predictive_models fitCex zeroPredict idTransform 0 initPredState fdCex pdCex).1.scaler.isSome = true ∧
    initPredState.scaler.isSome = false ∧
    (train_predictive_models fitCex zeroPredict idTransform 0 initPredState fdCex pdCex).1.engagement_model.isSome = true ∧
    initPredState.engagement_model.isSome = false ∧
    (train_predictive_models fitCex zeroPredict idTransform 0 initPredState fdCex pdCex).1.click_model.isSome = false :=
  ⟨rfl, rfl, rfl, rfl, rfl, rfl⟩

/-! ## Supporting lemmas for the daily-limit analysis (C7) -/

/-- True exactly on the daily-limit warning. -/
def isDailyLimitWarn : VWarning → Bool
  | VWarning.dailyLimit _ _ => true
  | _ => false

/-- The count a date key holds in the accumulated dict (0 when absent). -/
def lookupCount (acc : List (Int × Nat)) (k : Int) : Nat :=
  match acc with
  | [] => 0
  | (k2, c) :: rest => if k2 = k then c else lookupCount rest k

theorem lookupCount_bump (acc : List (Int × Nat)) (k k' : Int) :
    lookupCount (bumpCount acc k) k' =
      lookupCount acc k' + (if k' = k then 1 else 0) := by
  induction acc with
  | nil =>
    by_cases h : k' = k
    · subst h; simp [bumpCount, lookupCount]
    · simp [bumpCount, lookupCount, h, Ne.symm h]
  | cons q rest ih =>
    obtain ⟨k2, c⟩ := q
    by_cases h2 : k2 = k
    · subst h2
      by_cases h' : k2 = k'
      · subst h'; simp [bumpCount, lookupCount]
      · simp [bumpCount, lookupCount, h', Ne.symm h']
    · by_cases h' : k2 = k'
      · subst h'
        simp [bumpCount, lookupCount, h2, Ne.symm h2]
      · simp [bumpCount, lookupCount, h2, h', ih]

theorem lookupCount_foldl (l : List Int) (acc : List (Int × Nat)) (k : Int) :
    lookupCount (l.foldl (fun a t => bumpCount a (pyDate t)) acc) k =
      lookupCount acc k + l.countP (fun t => decide (pyDate t = k)) := by
  induction l generalizing acc with
  | nil => simp
  | cons t rest ih =>
    simp only [List.foldl_cons, List.countP_cons]
    rw [ih, lookupCount_bump]
    by_cases h : pyDate t = k <;> simp [h] <;> omega

theorem lookupCount_daily (sched : List Int) (k : Int) :
    lookupCount (dailyCounts sched) k =
      sched.countP fun t => decide (pyDate t = k) := by
  simpa [lookupCount] using lookupCount_foldl sched [] k

theorem keys_bumpCount (acc : List (Int × Nat)) (k : Int) :
    (bumpCount acc k).map Prod.fst =
      if k ∈ acc.map Prod.fst then acc.map Prod.fst
      else acc.map Prod.fst ++ [k] := by
  induction acc with
  | nil => simp [bumpCount]
  | cons q rest ih =>
    obtain ⟨k2, c⟩ := q
    by_cases h : k2 = k
    · subst h; simp [bumpCount]
    · simp only [bumpCount, if_neg h, List.map_cons, ih, List.mem_cons]
      by_cases hm : k ∈ rest.map Prod.fst
      · simp [hm, Ne.symm h]
      · simp [hm, Ne.symm h]

theorem nodup_keys_bumpCount (acc : List (Int × Nat)) (k : Int)
    (h : (acc.map Prod.fst).Nodup) : ((bumpCount acc k).map Prod.fst).Nodup := by
  rw [keys_bumpCount]
  split
  · exact h
  · next hk =>
    rw [List.nodup_append]
    exact ⟨h, List.nodup_singleton k,
      fun a ha hb => hk ((List.mem_singleton.mp hb) ▸ ha)⟩

theorem nodup_keys_dailyCounts (sched : List Int) :
    ((dailyCounts sched).map Prod.fst).Nodup := by
  have gen : ∀ (l : List Int) (acc : List (Int × Nat)), (acc.map Prod.fst).Nodup →
      ((l.foldl (fun a t => bumpCount a (pyDate t)) acc).map Prod.fst).Nodup := by
    intro l
    induction l with
    | nil => intro acc h; exact h
    | cons t rest ih => intro acc h; exact ih _ (nodup_keys_bumpCount _ _ h)
  simpa [dailyCounts] using gen sched [] (by simp)

theorem mem_keys_dailyCounts (sched : List Int) (k : Int)
    (h : k ∈ (dailyCounts sched).map Prod.fst) : ∃ t ∈ sched, pyDate t = k := by
  have gen : ∀ (l : List Int) (acc : List (Int × Nat)),
      k ∈ ((l.foldl (fun a t => bumpCount a (pyDate t)) acc).map Prod.fst) →
      k ∈ acc.map Prod.fst ∨ ∃ t ∈ l, pyDate t = k := by
    intro l
    induction l with
    | nil => intro acc hh; exact Or.inl hh
    | cons t rest ih =>
      intro acc hh
      rcases ih (bumpCount acc (pyDate t)) hh with h2 | h2
      · rw [keys_bumpCount] at h2
        split at h2
        · exact Or.inl h2
        · rcases List.mem_append.mp h2 with h3 | h3
          · exact Or.inl h3
          · exact Or.inr ⟨t, List.mem_cons_self t rest, (List.mem_singleton.mp h3).symm⟩
      · obtain ⟨u, hu, he⟩ := h2
        exact Or.inr ⟨u, List.mem_cons_of_mem _ hu, he⟩
  rcases gen sched [] (by simpa [dailyCounts] using h) with h2 | h2
  · simp at h2
  · exact h2

theorem lookupCount_of_mem_nodup (acc : List (Int × Nat))
    (h : (acc.map Prod.fst).Nodup) (p : Int × Nat) (hp : p ∈ acc) :
    lookupCount acc p.1 = p.2 := by
  induction acc with
  | nil => cases hp
  | cons q rest ih =>
    obtain ⟨k2, c⟩ := q
    rcases List.mem_cons.mp hp with hp1 | hp2
    · subst hp1; simp [lookupCount]
    · have hne : k2 ≠ p.1 := by
        intro he
        have : p.1 ∈ rest.map Prod.fst := List.mem_map_of_mem Prod.fst hp2
        rw [List.map_cons, List.nodup_cons] at h
        exact h.1 (he ▸ this)
      have htail : (rest.map Prod.fst).Nodup := by
        rw [List.map_cons, List.nodup_cons] at h
        exact h.2
      simp [lookupCount, hne, ih htail hp2]

theorem mem_of_lookupCount_pos (acc : List (Int × Nat)) (k : Int)
    (h : 0 < lookupCount acc k) : (k, lookupCount acc k) ∈ acc := by
  induction acc with
  | nil => simp [lookupCount] at h
  | cons q rest ih =>
    obtain ⟨k2, c⟩ := q
    by_cases hk : k2 = k
    · subst hk
      simp only [lookupCount, if_pos rfl] at h ⊢
      exact List.mem_cons_self _ _
    · simp only [lookupCount, if_neg hk] at h ⊢
      exact List.mem_cons_of_mem _ (ih h)

theorem daily_over_iff (sched : List Int) :
    (((dailyCounts sched).filter fun p => decide (max_daily_posts < p.2)) ≠ []) ↔
      ∃ t ∈ sched, max_daily_posts < sched.countP fun u => decide (pyDate u = pyDate t) := by
  constructor
  · intro hne
    obtain ⟨p, hp⟩ := List.exists_mem_of_ne_nil _ hne
    have hpmem : p ∈ dailyCounts sched := (List.mem_filter.mp hp).1
    have hpc : max_daily_posts < p.2 := by
      simpa using (List.mem_filter.mp hp).2
    obtain ⟨t, ht, hdt⟩ := mem_keys_dailyCounts sched p.1
      (List.mem_map_of_mem Prod.fst hpmem)
    refine ⟨t, ht, ?_⟩
    have hlk : lookupCount (dailyCounts sched) p.1 = p.2 :=
      lookupCount_of_mem_nodup _ (nodup_keys_dailyCounts sched) p hpmem
    have hcount := lookupCount_daily sched p.1
    rw [hlk] at hcount
    rw [hdt, ← hcount]
    exact hpc
  · rintro ⟨t, ht, hcount⟩
    have hlk := lookupCount_daily sched (pyDate t)
    have hpos : 0 < lookupCount (dailyCounts sched) (pyDate t) := by
      rw [hlk]; omega
    have hmem := mem_of_lookupCount_pos _ _ hpos
    have hfil : (pyDate t, lookupCount (dailyCounts sched) (pyDate t)) ∈
        (dailyCounts sched).filter fun p => decide (max_daily_posts < p.2) := by
      refine List.mem_filter.mpr ⟨hmem, ?_⟩
      simp only [decide_eq_true_eq]
      rw [hlk]; exact hcount
    exact List.ne_nil_of_mem hfil

theorem adjacentWarnings_no_daily (m : Int) (l : List Int) :
    (adjacentWarnings m l).any isDailyLimitWarn = false := by
  induction l with
  | nil => rfl
  | cons a rest ih =>
    cases rest with
    | nil => rfl
    | cons b rest2 =>
      simp only [adjacentWarnings, List.any_append, ih, Bool.or_false]
      by_cases h : b - a < m <;> simp [h, isDailyLimitWarn]

theorem any_daily_w1 (b : Bool) (n m : Nat) :
    (if b then ([] : List VWarning) else [VWarning.dailyLimit n m]).any isDailyLimitWarn = !b := by
  cases b <;> rfl

theorem any_daily_w3 (c : Prop) [Decidable c] (n : Nat) :
    (if c then [VWarning.weeklyLimit n] else ([] : List VWarning)).any isDailyLimitWarn = false := by
  split <;> rfl

theorem isEmpty_map_fst (l : List (Int × Nat)) :
    (l.map Prod.fst).isEmpty = l.isEmpty := by
  cases l <;> rfl

/-- C7 (amended): the daily-limit warning is emitted exactly when some
    calendar day taken from the instants themselves (their UTC date — no
    timezone conversion happens in this check) holds more than
    max_daily_posts instants, and validity is decided solely by the
    past-times check, never by the daily overage. -/
theorem C7_amended_daily_warning (region : RegionEnum) (sched : List Int) (now_utc : Int) :
    ((validate_posting_schedule region sched now_utc).warnings.any isDailyLimitWarn = true ↔
      ∃ t ∈ sched, max_daily_posts < sched.countP fun u => decide (pyDate u = pyDate t)) ∧
    ((validate_posting_schedule region sched now_utc).is_valid = true ↔
      ∀ t ∈ sched, now_utc < t) := by
  constructor
  · rw [← daily_over_iff]
    simp only [validate_posting_schedule, List.any_append, adjacentWarnings_no_daily,
      any_daily_w1, any_daily_w3, Bool.or_false, isEmpty_map_fst]
    rcases hf : (dailyCounts sched).filter fun p => decide (max_daily_posts < p.2) with _ | ⟨p, rest⟩
    · simp [hf]
    · simp [hf]
  · show (sched.filter fun t => decide (t ≤ now_utc)).isEmpty = true ↔ _
    rw [List.isEmpty_iff, List.filter_eq_nil_iff]
    constructor
    · intro h t ht
      have := h t ht
      simpa using this
    · intro h t ht
      simpa using h t ht

/-- C7 counterexample: seven instants sharing one America/New_York calendar
    day (more than the limit of six), but split five/two across two UTC
    dates: the claim demands a daily-limit warning, the validator emits
    none. -/
theorem C7_counterexample :
    (∃ t ∈ schedCex, max_daily_posts <
        schedCex.countP fun u =>
          decide (pyDate (u + regionalOffset RegionEnum.US) =
            pyDate (t + regionalOffset RegionEnum.US))) ∧
    (validate_posting_schedule RegionEnum.US schedCex 1767740400).warnings.any isDailyLimitWarn = false := by
  constructor
  · decide
  · rfl

attribute [local semireducible] Rat.mul Rat.add Rat.sub Rat.inv Rat.ofScientific in
/-- C10 counterexample: a valid ten-sample input in which every imageless
    sample has engagement rate exactly zero and the with-image bucket mean is
    positive, yet the analysis call returns a full report — the bucket means
    are numpy floats, so the zero-divisor division does not raise. -/
theorem C10_counterexample :
    postsCex.length = 10 ∧
    (∀ p ∈ postsCex, (extract_content_features p).has_image = false →
        (extract_performance_metrics p).engagement_rate = 0) ∧
    0 < (analyze_content_patterns (postsCex.map extract_content_features)
          (postsCex.map extract_performance_metrics)).image_with.avg_engagement ∧
    resultIsReport (analyze_content_performance 1 postsCex) = true := by
  refine ⟨rfl, by decide, by decide, by decide⟩

attribute [local semireducible] Rat.mul Rat.add Rat.sub Rat.inv Rat.ofScientific in
/-- C10 (amended): on that input the unguarded division by the zero
    without-image mean produces the numpy infinity, which the returned
    report carries inside its image-impact recommendation. -/
theorem C10_amended_inf_recommendation :
    reportHasInfImageRec (analyze_content_performance 1 postsCex) = true := by
  decide

end AryaPlatform
